import Mathlib

/-!
Shallow embedding of the JS-FileStream repository: the chunked blob reader in
src/FileStream.js (classes FileStream, GenericRead, TextRead) and the earlier
single-class variant in src/unnamed/part_000.  Each definition is translated
from the corresponding source function; line references are given in the doc
comments.  JavaScript-specific behaviour (undefined property reads, NaN
comparisons, loose equality with null, array indexing out of range) is made
explicit through a small value type and operation table.
-/

namespace FileStreamJS

/-- A JavaScript value as it occurs on the code paths modelled here: an
integer (every number in the source is integer-valued), `NaN`, `undefined`,
or `null`. -/
inductive JSVal where
  | int (n : Int)
  | nan
  | undefined
  | null
deriving DecidableEq

/-- JavaScript `+` restricted to the operand shapes occurring in the modelled
code (integers, `undefined`, `NaN`): integer addition, and `NaN` whenever an
operand is not an integer, since `ToNumber(undefined) = NaN` and arithmetic on
`NaN` yields `NaN`.  (`null` and strings never occur as operands here.) -/
def jsAdd : JSVal → JSVal → JSVal
  | .int a, .int b => .int (a + b)
  | _, _ => .nan

/-- JavaScript `*` restricted to the same operand shapes as `jsAdd`. -/
def jsMul : JSVal → JSVal → JSVal
  | .int a, .int b => .int (a * b)
  | _, _ => .nan

/-- JavaScript relational `>` on the occurring shapes: a comparison whose
either side is `NaN` or `undefined` (`ToNumber(undefined) = NaN`) is false. -/
def jsGt : JSVal → JSVal → Bool
  | .int a, .int b => decide (a > b)
  | _, _ => false

/-- JavaScript loose equality with `null` (`x == null`): true exactly for
`null` and `undefined`. -/
def jsLooseEqNull : JSVal → Bool
  | .null => true
  | .undefined => true
  | _ => false

/-- JavaScript array indexing `a[i]` for the index values occurring here: a
nonnegative in-range integer yields the element, anything else (negative,
out of range, `NaN`, `undefined`) yields `undefined`. -/
def jsIndex (a : List JSVal) (i : JSVal) : JSVal :=
  match i with
  | .int n => if 0 ≤ n then a.getD n.toNat .undefined else .undefined
  | _ => .undefined

/-- Indexing `c[i]` into the cached byte array (a `Uint8Array` in the source):
in range gives the byte, out of range gives `undefined`. -/
def jsByteAt (c : List Nat) (i : Nat) : JSVal :=
  if i < c.length then .int (c.getD i 0) else .undefined

/-- `Math.ceil(a / b)` for an integer `a` and a positive divisor `b`,
expressed through floor (Euclidean) division. -/
def mathCeilDiv (a : Int) (b : Nat) : Int := -((-a) / (b : Int))

/-- `Math.ceil(a / b)` on naturals (used for `lastChunk`); `b` is the positive
chunk size. -/
def mathCeilNatDiv (a b : Nat) : Nat := (a + b - 1) / b

/-- The exceptions that can be raised on the modelled code paths:
`invalidOffset` ("Attempted to seek to an invalid offset."),
`chunkIndexFromBadOffset` ("Attempted to find a chunk index from an invalid
offset"), `chunkOutOfBounds` ("Attempted to access a chunk beyond the bounds
of the blob"), `notABlob` (the TypeError raised by
`FileReader.readAsArrayBuffer` when its argument is not a Blob), and
`nullCache` (the TypeError raised by a property access such as
`this.cache.length` or `this.cache[i]` while `cache` is still `null`). -/
inductive JSErr where
  | invalidOffset
  | chunkIndexFromBadOffset
  | chunkOutOfBounds
  | notABlob
  | nullCache
deriving DecidableEq

/-- The per-instance state of a stream, shared by both source files (the
part_000 variant simply never touches `closed`):
`chunkSize` is `config.chunkSize`; `blob` the Source bytes (`blob.size` is
`blob.length`); `cache` is `this.cache`, with `none` for JS `null`;
`chunks` is `this.chunks`; `lastChunk`, `chunk`, `position` are the
homonymous fields.  `chunk` is a `JSVal` because `readChunk` stores whatever
argument it receives into it. -/
structure Stream where
  chunkSize : Nat
  blob : List Nat
  cache : Option (List Nat)
  chunks : List JSVal
  lastChunk : Nat
  chunk : JSVal
  position : Nat
  closed : Bool
deriving DecidableEq

/-- FileStream.tell (src/FileStream.js:56-59): `this.offset + (this.chunkSize
* this.chunk)`.  The instance has no `offset` and no `chunkSize` property
(the actual fields are `position` and `config.chunkSize`, and nothing in
either file ever assigns `this.offset` or `this.chunkSize`), so both property
reads yield `undefined` and the arithmetic yields `NaN`. -/
def tell (s : Stream) : JSVal := jsAdd .undefined (jsMul .undefined s.chunk)

/-- FileStream.EOF (src/FileStream.js:61-64): `this.tell() > this.blob.size`.
Note the comparison is strict `>`, and `tell` always produces `NaN`. -/
def EOF (s : Stream) : Bool := jsGt (tell s) (.int s.blob.length)

/-- FileStream.currentByte (src/FileStream.js:66-69): `this.cache[this.position]`;
the property access throws a TypeError while `cache` is `null`. -/
def currentByte (s : Stream) : Except JSErr JSVal :=
  match s.cache with
  | none => .error .nullCache
  | some c => .ok (jsByteAt c s.position)

/-- Blob.slice on byte sequences for the nonnegative arguments occurring
here: bytes in `[start, stop)` with `stop` clamped to the length. -/
def blobSlice (blob : List Nat) (start stop : Nat) : List Nat :=
  (blob.take stop).drop start

/-- GenericRead.sliceChunk (src/FileStream.js:165-170): bounds check against
`lastChunk`, then `blob.slice(index*chunkSize, chunkSize + index*chunkSize)`.
Its result is only ever produced inside the discarded `map` in `open`, so no
stream state ever holds it. -/
def sliceChunk (s : Stream) (index : Nat) : Except JSErr (List Nat) :=
  if (index : Int) > (s.lastChunk : Int) then .error .chunkOutOfBounds
  else .ok (blobSlice s.blob (index * s.chunkSize) (index * s.chunkSize + s.chunkSize))

/-- GenericRead.readChunk (src/FileStream.js:178-191).  After the bounds
check it sets `this.chunk = index` and `this.position = 0`, then calls
`reader.readAsArrayBuffer(this.chunks[this.chunk])`.  Every element of
`chunks` is the number `0` (`new Array(lastChunk).fill(0)`; the subsequent
`map` result is discarded, see `openBlob`), and an out-of-range lookup gives
`undefined`; neither is a Blob, so `readAsArrayBuffer` throws a TypeError
synchronously.  Consequently the `onload` callback never fires and `cache`
is never assigned; the dead success branch of the callback (assigning
`new Uint8Array(event.target.result)` to `cache`) and its error branch
(throwing the READERROR) are unreachable.  The returned state carries the
mutations performed before the throw. -/
def readChunk (s : Stream) (index : JSVal) : Except JSErr Unit × Stream :=
  if jsGt index (.int s.lastChunk) then (.error .chunkOutOfBounds, s)
  else (.error .notABlob, { s with chunk := index, position := 0 })

/-- The expression `this.cache[this.position++]` closing GenericRead.r
(src/FileStream.js:207), also the whole body of part_000's `r`
(src/unnamed/part_000:95-98): throws a TypeError on a `null` cache, otherwise
returns the indexed value (a byte in range, `undefined` out of range) and
increments `position`. -/
def cacheByteAndAdvance (s : Stream) : Except JSErr JSVal × Stream :=
  match s.cache with
  | none => (.error .nullCache, s)
  | some c => (.ok (jsByteAt c s.position), { s with position := s.position + 1 })

/-- GenericRead.r (src/FileStream.js:199-208): if `EOF`, return `null`; if
`position === cache.length` (a TypeError on a `null` cache), call
`readChunk(this.chunks[this.chunk + 1])` — note the argument is the array
element, not the index `chunk + 1`; finally `return this.cache[this.position++]`. -/
def r (s : Stream) : Except JSErr JSVal × Stream :=
  if EOF s then (.ok .null, s)
  else
    match s.cache with
    | none => (.error .nullCache, s)
    | some c =>
      if s.position = c.length then
        match readChunk s (jsIndex s.chunks (jsAdd s.chunk (.int 1))) with
        | (.error e, s1) => (.error e, s1)
        | (.ok _, s1) => cacheByteAndAdvance s1
      else cacheByteAndAdvance s

/-- GenericRead.read with no arguments (src/FileStream.js:221-226, `case 0`):
delegates to `r`. -/
def read0 (s : Stream) : Except JSErr JSVal × Stream := r s

/-- GenericRead.open (src/FileStream.js:87-107), for a Blob argument (the
`instanceof` check passes; `fileName` is display metadata and omitted).  It
sets `cache = null`, computes `lastChunk = Math.ceil(blob.size / chunkSize)`,
sets `this.chunks = new Array(lastChunk).fill(0)`, then evaluates
`this.chunks.map((_, i) => this.sliceChunk(i))` — whose resulting array is
not assigned to anything, so `chunks` keeps the zeros — and finally calls
`readChunk(0)`, which throws (see `readChunk`), so `this.closed = false` is
never reached.  The class field initializers give `chunk = 0`,
`position = 0`, `closed = true`. -/
def openBlob (chunkSize : Nat) (blob : List Nat) : Except JSErr Unit × Stream :=
  let s0 : Stream :=
    { chunkSize := chunkSize
      blob := blob
      cache := none
      chunks := List.replicate (mathCeilNatDiv blob.length chunkSize) (.int 0)
      lastChunk := mathCeilNatDiv blob.length chunkSize
      chunk := .int 0
      position := 0
      closed := true }
  match readChunk s0 (.int 0) with
  | (.error e, s1) => (.error e, s1)
  | (.ok _, s1) => (.ok (), { s1 with closed := false })

/-- The arrow function `newChunkIndex` defined inside GenericRead.seek
(src/FileStream.js:118-122): throws for an offset beyond the blob size,
otherwise returns `Math.ceil(offset / this.config.chunkSize)`. -/
def newChunkIndex (s : Stream) (offset : Int) : Except JSErr Int :=
  if offset > (s.blob.length : Int) then .error .chunkIndexFromBadOffset
  else .ok (mathCeilDiv offset s.chunkSize)

/-- GenericRead.seek (src/FileStream.js:116-132): range-check the offset,
compute the target via `newChunkIndex`, call `readChunk` when the target
differs (strict `!==`) from the current `chunk` field, then set
`this.position = offset % this.config.chunkSize` (the offset is nonnegative
here, so `%` agrees with the Euclidean remainder). -/
def seek (s : Stream) (offset : Int) : Except JSErr Unit × Stream :=
  if offset > (s.blob.length : Int) ∨ offset < 0 then (.error .invalidOffset, s)
  else
    match newChunkIndex s offset with
    | .error e => (.error e, s)
    | .ok c =>
      match (if (JSVal.int c) ≠ s.chunk then readChunk s (.int c) else (.ok (), s)) with
      | (.error e, s1) => (.error e, s1)
      | (.ok _, s1) => (.ok (), { s1 with position := (offset % (s.chunkSize : Int)).toNat })

/-- A JavaScript array used as the target of the three-argument read, viewed
as its assignment map: JS allows writing at any integer index (a negative
index creates an ordinary property without affecting the elements), so the
buffer is a total map from integer indices to values; fresh slots read as
`undefined`. -/
abbrev Buffer := Int → JSVal

/-- Assignment `buf[i] = v` on a `Buffer`. -/
def bufWrite (buf : Buffer) (i : Int) (v : JSVal) : Buffer :=
  fun j => if j = i then v else buf j

/-- The `case 3` loop of GenericRead.read (src/FileStream.js:233-238):
`for(; bytesRead < len && this.currentByte != null; ++bytesRead)
array[bytesRead + offset] = this.r();`.  The fuel argument `remaining` is the
number of iterations still allowed by `bytesRead < len`; `&&`
short-circuits, so `currentByte` (which can throw on a null cache) is only
evaluated while that holds.  If `r` throws, the pending assignment does not
happen and the exception propagates with the state mutated so far. -/
def readLoop (offset : Int) : Nat → Nat → Stream → Buffer → Except JSErr Nat × Buffer × Stream
  | 0, bytesRead, s, buf => (.ok bytesRead, buf, s)
  | remaining + 1, bytesRead, s, buf =>
    match currentByte s with
    | .error e => (.error e, buf, s)
    | .ok v =>
      if jsLooseEqNull v then (.ok bytesRead, buf, s)
      else
        match r s with
        | (.error e, s1) => (.error e, buf, s1)
        | (.ok b, s1) =>
          readLoop offset remaining (bytesRead + 1) s1 (bufWrite buf ((bytesRead : Int) + offset) b)

/-- GenericRead.read with three arguments (src/FileStream.js:233-238).  The
guard `if(!isArray(array)) throw this.invalidArgError;` is the only check:
`isArray` names an array test (the identifier is defined nowhere in the
repository), which the `Buffer` argument satisfies, so the throw branch is
not taken; no check of `offset` or `len` exists.  The loop runs while
`bytesRead < len`, i.e. at most `len.toNat` times, and the function returns
`bytesRead`. -/
def read3 (s : Stream) (array : Buffer) (offset len : Int) : Except JSErr Nat × Buffer × Stream :=
  readLoop offset len.toNat 0 s array

/-- TextRead.readLine (src/FileStream.js:249-259): `while ((byte = this.r())
!== 0x0A) { if (byte === null) break; s += String.fromCharCode(byte); }`.
The byte reader `this.r()` is represented here by the list of byte values it
successively yields before yielding the `null` sentinel, so that the line
logic is examined against a byte supply as the claim premises; the
terminating `0x0A` is consumed but excluded from the result.  Returns the
accumulated string and the unconsumed bytes (the `currentLine` counter has no
observable effect on the results and is omitted). -/
def readLine : List Nat → String × List Nat
  | [] => ("", [])
  | b :: rest =>
    if b = 0x0A then ("", rest)
    else
      let p := readLine rest
      (String.singleton (Char.ofNat b) ++ p.1, p.2)

/-- The code-unit of the last character of a string, as `s.charCodeAt(s.length
- 1)` computes it; `none` stands for the `NaN` produced on an empty string. -/
def lastCharCode (s : String) : Option Nat :=
  match s.data.getLast? with
  | some c => some c.toNat
  | none => none

/-- The loop of TextRead.readLines (src/FileStream.js:261-276), recursing on
the iterations remaining out of `amount`.  After each `readLine`, the check
`str.charCodeAt(str.length - 1) !== 0x0A` decides truncation; on truncation
the loop warns (`console.warn`, the truncated-read signal, recorded as the
boolean) exactly when `i + 1 !== amount`, i.e. when further iterations
remained, and breaks. -/
def readLinesLoop : Nat → List Nat → List String × Bool
  | 0, _ => ([], false)
  | remaining + 1, bytes =>
    let p := readLine bytes
    if lastCharCode p.1 ≠ some 0x0A then
      ([p.1], remaining != 0)
    else
      let q := readLinesLoop remaining p.2
      (p.1 :: q.1, q.2)

/-- TextRead.readLines (src/FileStream.js:261-276): run the loop and join the
collected lines with `"\n"`; the boolean reports whether the truncated-read
signal (`console.warn`) fired. -/
def readLines (amount : Nat) (bytes : List Nat) : String × Bool :=
  let p := readLinesLoop amount bytes
  (String.intercalate newlineString p.1, p.2)
where
  /-- The separator string used by `join("\n")`. -/
  newlineString : String := "\n"

namespace Part000

/-- FileStream.tell in src/unnamed/part_000:145-148, textually identical to
src/FileStream.js:56-59, with the same absent `offset` and `chunkSize`
properties. -/
def tell (s : Stream) : JSVal := jsAdd .undefined (jsMul .undefined s.chunk)

/-- FileStream.EOF in src/unnamed/part_000:150-153: `this.tell() > this.blob.size`. -/
def EOF (s : Stream) : Bool := jsGt (tell s) (.int s.blob.length)

/-- FileStream.readChunk in src/unnamed/part_000:74-87, textually identical
to src/FileStream.js:178-191 (same bounds check, same mutation of `chunk` and
`position` before the `FileReader` call, same TypeError on the non-Blob
`chunks` element). -/
def readChunk (s : Stream) (index : JSVal) : Except JSErr Unit × Stream :=
  if jsGt index (.int s.lastChunk) then (.error .chunkOutOfBounds, s)
  else (.error .notABlob, { s with chunk := index, position := 0 })

/-- FileStream.r in src/unnamed/part_000:95-98: the raw
`return this.cache[this.position++];` with no EOF or boundary handling. -/
def r (s : Stream) : Except JSErr JSVal × Stream :=
  match s.cache with
  | none => (.error .nullCache, s)
  | some c => (.ok (jsByteAt c s.position), { s with position := s.position + 1 })

/-- FileStream.read in src/unnamed/part_000:106-115: the EOF check and the
chunk-advance (again passing the array element `chunks[chunk + 1]` to
`readChunk`) live here, and the final byte fetch is delegated to `r`. -/
def read (s : Stream) : Except JSErr JSVal × Stream :=
  if EOF s then (.ok .null, s)
  else
    match s.cache with
    | none => (.error .nullCache, s)
    | some c =>
      if s.position = c.length then
        match readChunk s (jsIndex s.chunks (jsAdd s.chunk (.int 1))) with
        | (.error e, s1) => (.error e, s1)
        | (.ok _, s1) => r s1
      else r s

/-- FileStream.getChunkIndexFromOffset in src/unnamed/part_000:134-138: the
same `Math.ceil(offset / chunkSize)` as the `newChunkIndex` closure in
src/FileStream.js. -/
def getChunkIndexFromOffset (s : Stream) (offset : Int) : Except JSErr Int :=
  if offset > (s.blob.length : Int) then .error .chunkIndexFromBadOffset
  else .ok (mathCeilDiv offset s.chunkSize)

end Part000

/-- Concrete stream for C2: the state after `open` of a 10-byte blob with
`chunkSize = 4` (so `lastChunk = 3`, current chunk index 0). -/
def sC2 : Stream := (openBlob 4 [1, 2, 3, 4, 5, 6, 7, 8, 9, 10]).2

/-- Concrete stream for C3: the state after `open` of an empty blob with
`chunkSize = 4`. -/
def sC3 : Stream := (openBlob 4 []).2

/-- Concrete stream for C4: the state after `open` of the 2-byte blob `[5, 6]`
with the default `chunkSize = 1024`. -/
def sC4 : Stream := (openBlob 1024 [5, 6]).2

/-- Concrete stream for C5: blob `[10, 20, 30, 40]`, `chunkSize = 2`, with the
state as it would be had chunk 0 been resident and both of its bytes read:
`cache = [10, 20]`, `chunk = 0`, `position = 2` (the exhausted-chunk state the
claim quantifies over). -/
def sC5 : Stream :=
  { chunkSize := 2, blob := [10, 20, 30, 40], cache := some [10, 20]
    chunks := [.int 0, .int 0], lastChunk := 2, chunk := .int 0
    position := 2, closed := false }

/-- Concrete stream for C7: blob `[1, 2, 3, 4]`, `chunkSize = 2`, with chunk 1
resident (`cache = [3, 4]`) and the cursor mid-chunk (`position = 1`) — the
last-known-good state before a load of chunk 0 is attempted. -/
def sC7 : Stream :=
  { chunkSize := 2, blob := [1, 2, 3, 4], cache := some [3, 4]
    chunks := [.int 0, .int 0], lastChunk := 2, chunk := .int 1
    position := 1, closed := false }

/-- Concrete stream for C8: blob `[1, 2, 3, 4]`, `chunkSize = 2`, chunk 0
resident (`cache = [1, 2]`), cursor at its start. -/
def sC8 : Stream :=
  { chunkSize := 2, blob := [1, 2, 3, 4], cache := some [1, 2]
    chunks := [.int 0, .int 0], lastChunk := 2, chunk := .int 0
    position := 0, closed := false }

/-- Concrete stream for C9: blob `[5, 6, 7]`, `chunkSize = 4`, the single
chunk resident, cursor at its start. -/
def sC9 : Stream :=
  { chunkSize := 4, blob := [5, 6, 7], cache := some [5, 6, 7]
    chunks := [.int 0], lastChunk := 1, chunk := .int 0
    position := 0, closed := false }

/-- Concrete stream for the C10 witness: a freshly opened 3-byte blob with
`chunkSize = 2`. -/
def sC10 : Stream :=
  { chunkSize := 2, blob := [1, 2, 3], cache := none
    chunks := [.int 0, .int 0], lastChunk := 2, chunk := .int 0
    position := 0, closed := true }

/-- A fresh buffer: every slot reads as `undefined`. -/
def buf0 : Buffer := fun _ => .undefined

/-- The byte sequence of the text blob `"abc\ndef\n"`. -/
def c6bytes : List Nat := [97, 98, 99, 0x0A, 100, 101, 102, 0x0A]

/-- The `tell` of src/FileStream.js evaluates to `NaN` on every stream state,
because `this.offset` and `this.chunkSize` are absent properties. -/
theorem tell_eq_nan (s : Stream) : tell s = JSVal.nan := by
  cases hc : s.chunk <;> simp [tell, hc, jsMul, jsAdd]

/-- Consequently `EOF` is false on every stream state: `NaN > size` is false. -/
theorem EOF_always_false (s : Stream) : EOF s = false := by
  simp [EOF, tell_eq_nan, jsGt]

/-- Writing a buffer slot leaves every other slot unchanged. -/
theorem bufWrite_ne (buf : Buffer) (i : Int) (v : JSVal) (j : Int) (h : j ≠ i) :
    bufWrite buf i v j = buf j := by
  simp [bufWrite, h]

/-- The fill loop only assigns indices in `[offset + bytesRead, offset +
bytesRead + remaining)`. -/
theorem readLoop_frame (remaining : Nat) :
    ∀ (bytesRead : Nat) (s : Stream) (buf : Buffer) (offset j : Int),
      (j < offset + bytesRead ∨ offset + bytesRead + remaining ≤ j) →
      (readLoop offset remaining bytesRead s buf).2.1 j = buf j := by
  induction remaining with
  | zero => intro bytesRead s buf offset j _; rfl
  | succ rem ih =>
    intro bytesRead s buf offset j hj
    show (readLoop offset (rem + 1) bytesRead s buf).2.1 j = buf j
    rw [readLoop]
    cases hcb : currentByte s with
    | error e => rfl
    | ok v =>
      by_cases hv : jsLooseEqNull v
      · simp [hv]
      · simp only [hv, if_false, Bool.false_eq_true]
        rcases hr : r s with ⟨res, s1⟩
        cases res with
        | error e => rfl
        | ok b =>
          have hj2 : j < offset + (bytesRead + 1) ∨ offset + (bytesRead + 1) + rem ≤ j := by
            rcases hj with h | h
            · exact Or.inl (by omega)
            · exact Or.inr (by omega)
          have hne : j ≠ (bytesRead : Int) + offset := by
            rcases hj with h | h
            · omega
            · omega
          rw [ih (bytesRead + 1) s1 (bufWrite buf ((bytesRead : Int) + offset) b) offset j hj2]
          exact bufWrite_ne buf ((bytesRead : Int) + offset) b j hne

/-- When the fill loop returns a count, the count is at most `bytesRead +
remaining`. -/
theorem readLoop_count (remaining : Nat) :
    ∀ (bytesRead : Nat) (s : Stream) (buf : Buffer) (offset : Int) (n : Nat),
      (readLoop offset remaining bytesRead s buf).1 = .ok n → n ≤ bytesRead + remaining := by
  induction remaining with
  | zero =>
    intro bytesRead s buf offset n h
    have : Except.ok (ε := JSErr) bytesRead = .ok n := h
    cases this
    omega
  | succ rem ih =>
    intro bytesRead s buf offset n h
    rw [readLoop] at h
    cases hcb : currentByte s with
    | error e => rw [hcb] at h; cases h
    | ok v =>
      rw [hcb] at h
      by_cases hv : jsLooseEqNull v
      · simp only [hv, if_true] at h
        cases h
        omega
      · simp only [hv, if_false, Bool.false_eq_true] at h
        rcases hr : r s with ⟨res, s1⟩
        rw [hr] at h
        cases res with
        | error e => cases h
        | ok b =>
          have := ih (bytesRead + 1) s1 (bufWrite buf ((bytesRead : Int) + offset) b) offset n h
          omega

/-- C1: sequential single-byte reads from offset 0 are claimed to reproduce
the source bytes up to the EOF sentinel; on the source `[7]` with
`chunkSize = 1024` (the `L < C` case), `open` itself throws the TypeError
from `readAsArrayBuffer` (the chunks array holds only zeros), the cache stays
`null`, and the first `r()` — equally part_000's `read()` — throws a
TypeError on the null cache instead of yielding byte 7. -/
theorem c1_first_read_throws :
    (openBlob 1024 [7]).1 = Except.error JSErr.notABlob ∧
    (openBlob 1024 [7]).2.cache = none ∧
    (r (openBlob 1024 [7]).2).1 = Except.error JSErr.nullCache ∧
    (Part000.read (openBlob 1024 [7]).2).1 = Except.error JSErr.nullCache :=
  ⟨rfl, rfl, rfl, rfl⟩

/-- C2: seek is claimed to target chunk `floor(offset / chunkSize)`; the code
computes `Math.ceil`.  On `sC2` (`chunkSize = 4`, current chunk 0) with
offset 2, the claimed target is `2 / 4 = 0`, equal to the cached index, so no
load should happen; the code computes target `1`, judges it different, and
calls `readChunk 1` (which mutates `chunk` to 1 and throws). -/
theorem c2_seek_uses_ceil :
    newChunkIndex sC2 2 = Except.ok 1 ∧
    Part000.getChunkIndexFromOffset sC2 2 = Except.ok 1 ∧
    (2 : Int) / 4 = 0 ∧
    sC2.chunk = JSVal.int 0 ∧
    (seek sC2 2).2.chunk = JSVal.int 1 ∧
    (seek sC2 2).1 = Except.error JSErr.notABlob :=
  ⟨rfl, rfl, by decide, rfl, rfl, rfl⟩

/-- C3: EOF is claimed to hold exactly when the absolute position reaches the
length, and a read at EOF to return the sentinel.  On the empty source
(`L = 0`), `seek 0` succeeds, yet `EOF` reports `false` (`tell` is `NaN` and
the comparison is a strict `>`), and the subsequent `r()` throws a TypeError
on the null cache instead of returning the `null` sentinel. -/
theorem c3_eof_never_reported :
    (seek sC3 0).1 = Except.ok () ∧
    EOF (seek sC3 0).2 = false ∧
    tell (seek sC3 0).2 = JSVal.nan ∧
    (r (seek sC3 0).2).1 = Except.error JSErr.nullCache :=
  ⟨rfl, rfl, rfl, rfl⟩

/-- C4: `seek o` followed by `tell` is claimed to return `o`.  On `sC4` with
`o = 0` the seek succeeds, but `tell` returns `NaN` (both in
src/FileStream.js and in part_000), not `0`. -/
theorem c4_tell_is_nan :
    (seek sC4 0).1 = Except.ok () ∧
    tell (seek sC4 0).2 = JSVal.nan ∧
    Part000.tell (seek sC4 0).2 = JSVal.nan ∧
    JSVal.nan ≠ JSVal.int 0 :=
  ⟨rfl, rfl, rfl, by decide⟩

/-- C5: with the current chunk exhausted, `r` is claimed to load chunk
`index + 1` and return the byte there.  On `sC5` (chunk 0 of `[10,20,30,40]`
exhausted) the argument `r` passes to `readChunk` is `chunks[chunk + 1]`,
i.e. the array element `0`, not the index `1`; the load re-targets chunk 0
(the post-state `chunk` is `0`, not `1`) and throws the `readAsArrayBuffer`
TypeError instead of returning byte 30. -/
theorem c5_boundary_reloads_chunk_zero :
    jsIndex sC5.chunks (jsAdd sC5.chunk (JSVal.int 1)) = JSVal.int 0 ∧
    (r sC5).1 = Except.error JSErr.notABlob ∧
    (r sC5).2.chunk = JSVal.int 0 ∧
    (r sC5).2.position = 0 :=
  ⟨rfl, rfl, rfl, rfl⟩

/-- C6: on `"abc\ndef\n"`, `readLines 2` is claimed to return `"abc\ndef"`
with no truncation signal, and `readLines 3` the same string with the signal.
Because `readLine` strips the terminating `0x0A`, the check
`str.charCodeAt(str.length - 1) !== 0x0A` in `readLines` is true after every
line, so both calls stop after the first line: each returns `"abc"`, and both
fire the truncation signal. -/
theorem c6_readlines_always_truncates :
    readLines 2 c6bytes = ("abc", true) ∧
    readLines 3 c6bytes = ("abc", true) ∧
    ("abc" : String) ≠ "abc\ndef" := by
  refine ⟨rfl, rfl, by decide⟩

/-- C7 counterexample: loading is claimed to be atomic — on failure the cache
and the cursor keep their prior state.  From `sC7` (chunk 1 resident, cursor
at `(1, 1)`), the load of chunk 0 fails, the cache does keep the old bytes
`[3, 4]` (not chunk 0's bytes `[1, 2]`), but the cursor is clobbered to
`(0, 0)`: it now points into a chunk that was not loaded.  The part_000
`readChunk` clobbers it identically. -/
theorem c7_counterexample :
    (readChunk sC7 (JSVal.int 0)).1 = Except.error JSErr.notABlob ∧
    (readChunk sC7 (JSVal.int 0)).2.cache = some [3, 4] ∧
    blobSlice sC7.blob 0 2 = [1, 2] ∧
    (readChunk sC7 (JSVal.int 0)).2.chunk = JSVal.int 0 ∧
    sC7.chunk = JSVal.int 1 ∧
    (readChunk sC7 (JSVal.int 0)).2.position = 0 ∧
    sC7.position = 1 ∧
    (Part000.readChunk sC7 (JSVal.int 0)).2.chunk = JSVal.int 0 :=
  ⟨rfl, rfl, rfl, rfl, rfl, rfl, rfl, rfl⟩

/-- C7 as amended: the cache slot is indeed never partially updated — a load,
which here always fails, leaves the cache bytes exactly as they were — but
the cursor is not restored: an in-range load sets it to `(index, 0)` even
though the load failed, while an out-of-range index leaves the whole state
unchanged. -/
theorem c7_load_cache_atomic_cursor_reset (s : Stream) (idx : JSVal) :
    ((readChunk s idx).2).cache = s.cache ∧
    (readChunk s idx).2 =
      (if jsGt idx (JSVal.int s.lastChunk) then s
       else { s with chunk := idx, position := 0 }) ∧
    (readChunk s idx).1 =
      Except.error (if jsGt idx (JSVal.int s.lastChunk) then JSErr.chunkOutOfBounds
        else JSErr.notABlob) := by
  by_cases h : jsGt idx (JSVal.int s.lastChunk) <;> simp [readChunk, h]

/-- C7 witness: the amended statement evaluated at `sC7` with the in-range
index 0. -/
theorem c7_load_cache_atomic_cursor_reset_witness :
    ((readChunk sC7 (JSVal.int 0)).2).cache = sC7.cache :=
  (c7_load_cache_atomic_cursor_reset sC7 (JSVal.int 0)).1

/-- C8 counterexample: the three-argument fill read is claimed to return a
count short of `len` only at EOF.  From `sC8` (chunk 0 of the 4-byte source
resident), `read3 buf 0 4` stops at the chunk boundary after 2 bytes — the
loop guard `currentByte != null` sees `cache[2] = undefined` — and returns
`2 < 4`, although only half the source is consumed (the cursor stands at
absolute position `0 * 2 + 2 = 2` of 4) and EOF does not hold. -/
theorem c8_counterexample :
    (read3 sC8 buf0 0 4).1 = Except.ok 2 ∧
    (2 : Nat) < 4 ∧
    EOF (read3 sC8 buf0 0 4).2.2 = false ∧
    (read3 sC8 buf0 0 4).2.2.chunk = JSVal.int 0 ∧
    (read3 sC8 buf0 0 4).2.2.position = 2 ∧
    sC8.blob.length = 4 :=
  ⟨rfl, by decide, rfl, rfl, rfl, rfl⟩

/-- C8 as amended: the fill read writes only into `[offset, offset + len)`
and, when it returns a count, the count is at most `len`; but the count can
fall short of `len` whenever the cached chunk is exhausted, not only at EOF. -/
theorem c8_fill_frame_and_count (s : Stream) (array : Buffer) (offset len : Int) :
    (∀ j : Int, j < offset ∨ offset + len ≤ j → (read3 s array offset len).2.1 j = array j) ∧
    (∀ n : Nat, (read3 s array offset len).1 = .ok n → (n : Int) ≤ max len 0) := by
  constructor
  · intro j hj
    rcases le_or_lt 0 len with hlen | hlen
    · refine readLoop_frame len.toNat 0 s array offset j ?_
      rcases hj with h | h
      · exact Or.inl (by omega)
      · exact Or.inr (by omega)
    · have hz : len.toNat = 0 := by omega
      show (readLoop offset len.toNat 0 s array).2.1 j = array j
      rw [hz]
      rfl
  · intro n hn
    have := readLoop_count len.toNat 0 s array offset n hn
    omega

/-- C8 witness: the amended statement evaluated at `sC8` with a fresh buffer,
offset 0 and length 1 — the slot at index `-3` is untouched and the returned
count 1 is at most the requested length. -/
theorem c8_fill_frame_and_count_witness :
    (read3 sC8 buf0 0 1).2.1 (-3) = buf0 (-3) ∧ ((1 : Nat) : Int) ≤ max 1 0 :=
  ⟨(c8_fill_frame_and_count sC8 buf0 0 1).1 (-3) (Or.inl (by decide)),
   (c8_fill_frame_and_count sC8 buf0 0 1).2 1 rfl⟩

/-- C9: malformed offset/len combinations are claimed to fail with
InvalidArgument, writing nothing and leaving the cursor unchanged.  The code
validates neither: with `offset = -1` and `len = 1` on `sC9`, the call
returns `ok 1` (no error), writes the byte 5 into slot `-1` — outside any
buffer — and advances the cursor from 0 to 1. -/
theorem c9_missing_validation :
    (read3 sC9 buf0 (-1) 1).1 = Except.ok 1 ∧
    (read3 sC9 buf0 (-1) 1).2.1 (-1) = JSVal.int 5 ∧
    buf0 (-1) = JSVal.undefined ∧
    (read3 sC9 buf0 (-1) 1).2.2.position = 1 ∧
    sC9.position = 0 :=
  ⟨rfl, rfl, rfl, rfl, rfl⟩

/-- C10: from any identical stream state, the single-byte read of
src/unnamed/part_000 (`read`, carrying the EOF check and chunk-advance and
delegating the byte fetch to its raw `r`) returns the same value and produces
the same successor state as the zero-argument read of src/FileStream.js
(which delegates to `GenericRead.r`, where the EOF check and chunk-advance
live). -/
theorem c10_read_paths_equivalent (s : Stream) : Part000.read s = read0 s := rfl

/-- C10 witness: the equivalence evaluated on a freshly opened 3-byte stream. -/
theorem c10_read_paths_equivalent_witness : Part000.read sC10 = read0 sC10 :=
  c10_read_paths_equivalent sC10

end FileStreamJS
